import Mathlib

/-!
Shallow embedding of `gift_analyzer.py` (module `gift_analyzer` of the
repository, entry point `app.py`).

Conventions of the embedding:
* instants (`datetime.now()`) are integers counting seconds; durations are
  integer numbers of seconds (`timedelta(hours=24)` becomes `86400`);
* Python exceptions are modelled with `Except String`, the `String` being
  `str(e)` (the exception message); code that raises returns `.error msg`;
* Python dicts that are used as insertion-ordered counters are modelled as
  association lists `List (String × Nat)` in insertion order;
* Python float division is modelled exactly over `ℚ`;
* the md5 hashing of cache keys is modelled as the identity on logical keys
  (md5 is injective for the purposes of the program: distinct logical keys
  give distinct files);
* the HTTP world (`requests.get`) is an oracle parameter: each call site
  receives the outcome of its request as a value of `HttpOutcome`.
-/

/-- Python `needle in haystack` on lists of characters: `needle` occurs as a
contiguous substring of `haystack`. -/
def listContainsSub (needle haystack : List Char) : Bool :=
  (List.range (haystack.length + 1)).any (fun i => needle.isPrefixOf (haystack.drop i))

/-- Python `needle in haystack` for strings (substring containment). -/
def strContains (needle haystack : String) : Bool :=
  listContainsSub needle.data haystack.data

/-- Python `str.lower()`, modelled character-wise (identity on the Chinese
keywords that the program matches against). -/
def pyLower (s : String) : String :=
  ⟨s.data.map Char.toLower⟩

/-- Python `str.strip()`: remove leading and trailing whitespace. -/
def pyStrip (s : String) : String :=
  s.trim

/-- Python `str.lstrip('@')`: remove leading `@` characters. -/
def lstripAt (s : String) : String :=
  ⟨s.data.dropWhile (fun c => c = '@')⟩

/-- Python `str.split()` (no argument): split on whitespace runs, dropping
empty pieces. -/
def pySplit (s : String) : List String :=
  (s.split Char.isWhitespace).filter (fun w => w ≠ "")

/-- Python `d[k] = d.get(k, 0) + 1` on an insertion-ordered dict: bump the
count in place when the key is present, otherwise append the key with
count 1 at the end (Python dicts preserve insertion order). -/
def dictIncr : List (String × Nat) → String → List (String × Nat)
  | [], k => [(k, 1)]
  | (k0, v) :: rest, k =>
    if k0 = k then (k0, v + 1) :: rest else (k0, v) :: dictIncr rest k

/-- Stable insertion into a list sorted by second component, descending:
the new element goes after every element with a strictly larger count and
before elements with an equal or smaller count.  Used to model Python
`sorted(items, key=lambda x: x[1], reverse=True)`, which is a stable
descending sort. -/
def insertByCountDesc (x : String × Nat) : List (String × Nat) → List (String × Nat)
  | [] => [x]
  | y :: ys => if x.2 < y.2 then y :: insertByCountDesc x ys else x :: y :: ys

/-- Python `sorted(items, key=lambda x: x[1], reverse=True)`: stable sort by
count, descending (ties keep the original, i.e. insertion, order). -/
def pySortedDesc (l : List (String × Nat)) : List (String × Nat) :=
  l.foldr insertByCountDesc []

/-! ## TwitterCache (`gift_analyzer.py` lines 12-44) -/

/-- State of the on-disk record backing one cache key: the file may be
missing, may exist but be unreadable as a cache entry (invalid JSON, or a
JSON object without a parseable `timestamp` field — reading it raises), or
may hold a well-formed entry `{timestamp, data}`. -/
inductive DiskRecord (α : Type) where
  | missing : DiskRecord α
  | corrupt : DiskRecord α
  | entry (timestamp : Int) (data : α) : DiskRecord α

/-- The message of the exception `json.load` / `datetime.fromisoformat` /
the missing-key lookup raises on a corrupt cache file (a representative
`str(e)`; its exact text is irrelevant, only that an exception propagates). -/
def corruptCacheMsg : String :=
  "Expecting value: line 1 column 1 (char 0)"

/-- `TwitterCache.cache_duration = timedelta(hours=24)`, in seconds. -/
def cacheDuration : Int := 24 * 60 * 60

/-- `TwitterCache.get` (lines 25-34): if the file exists, load it — a corrupt
file makes `json.load`/`fromisoformat` raise, and there is no handler, so the
exception propagates; a well-formed entry is returned only while
`now - timestamp < cache_duration`, otherwise `None` is returned; a missing
file returns `None`. -/
def TwitterCache.get {α : Type} (store : String → DiskRecord α) (now : Int)
    (key : String) : Except String (Option α) :=
  match store key with
  | DiskRecord.missing => Except.ok none
  | DiskRecord.corrupt => Except.error corruptCacheMsg
  | DiskRecord.entry ts data =>
    if now - ts < cacheDuration then Except.ok (some data) else Except.ok none

/-- `TwitterCache.set` (lines 36-44): unconditionally overwrite the record
for `key` with `{timestamp: now, data}`. -/
def TwitterCache.set {α : Type} (store : String → DiskRecord α) (now : Int)
    (key : String) (data : α) : String → DiskRecord α :=
  fun k => if k = key then DiskRecord.entry now data else store k

/-! ## Rate limiter (`gift_analyzer.py` lines 84-89 and 205-220) -/

/-- The `self.rate_limit` dict of `TwitterAPIv2.__init__` (lines 84-89). -/
structure RateLimit where
  remaining : Int
  reset_time : Int
  requests_per_window : Int
  window_size : Int
  deriving Repr, DecidableEq

/-- The keys of the `self.rate_limit` dict literal in
`TwitterAPIv2.__init__` (lines 84-89); no other code adds keys to it. -/
def rateLimitKeys : List String :=
  ["remaining", "reset_time", "requests_per_window", "window_size"]

/-- The initial rate-limit state built in `TwitterAPIv2.__init__`:
25 requests per 15-minute window, window started at construction time. -/
def initRateLimit (now : Int) : RateLimit :=
  { remaining := 25
    reset_time := now + 15 * 60
    requests_per_window := 25
    window_size := 15 }

/-- Message of the exception raised by `_check_rate_limit` (line 220):
`f"达到速率限制，请等待{minutes}分{seconds}秒"` with
`minutes = int(wait/60)` and `seconds = int(wait % 60)`. -/
def rateLimitMsg (wait : Int) : String :=
  "达到速率限制，请等待" ++ toString (wait / 60) ++ "分" ++ toString (wait % 60) ++ "秒"

/-- The window-reset step of `_check_rate_limit` (lines 209-212): if
`now >= reset_time`, set `remaining = requests_per_window` and
`reset_time = now + window_size minutes`. -/
def resetIfElapsed (rl : RateLimit) (now : Int) : RateLimit :=
  if rl.reset_time ≤ now then
    { rl with
      remaining := rl.requests_per_window
      reset_time := now + rl.window_size * 60 }
  else rl

/-- `TwitterAPIv2._check_rate_limit` (lines 205-220): first the window-reset
step, then, on the mutated state, if `remaining <= 2` (2 calls kept as a
buffer), compute `wait = reset_time - now` and raise when `wait > 0`.
Returns the mutated state and the outcome. -/
def checkRateLimit (rl : RateLimit) (now : Int) : RateLimit × Except String Unit :=
  if (resetIfElapsed rl now).remaining ≤ 2 then
    if 0 < (resetIfElapsed rl now).reset_time - now then
      (resetIfElapsed rl now,
        Except.error (rateLimitMsg ((resetIfElapsed rl now).reset_time - now)))
    else (resetIfElapsed rl now, Except.ok ())
  else (resetIfElapsed rl now, Except.ok ())

/-! ## HTTP oracle and payload types -/

/-- Outcome of one `requests.get` call, as observed by the caller:
a 200 with a parseable body, a 200 whose body makes `response.json()` raise,
the status codes the program branches on (404, 401), any other status code,
or a `requests.exceptions.RequestException` carrying `str(e)`. -/
inductive HttpOutcome (α : Type) where
  | ok200 (body : α) : HttpOutcome α
  | ok200corrupt : HttpOutcome α
  | notFound404 : HttpOutcome α
  | auth401 : HttpOutcome α
  | otherStatus (code : Nat) : HttpOutcome α
  | netError (msg : String) : HttpOutcome α
  deriving DecidableEq

/-- The `data` object of a user-lookup response body, reduced to the only
field the program reads (`user_info['id']`, line 364); `id = none` models a
`data` object with no `'id'` key, whose subscript raises `KeyError`. -/
structure UserObj where
  id : Option String
  deriving Repr, DecidableEq

/-- Body of a user-lookup response: `data = none` models a JSON object with
no `'data'` key (line 359 tests `'data' not in user_data`). -/
structure UserResponse where
  data : Option UserObj
  deriving Repr, DecidableEq

/-- One tweet object, reduced to what `analyze_tweets` reads: its `text`
(absent text modelled as `""`, as by `tweet.get('text', '')`) and the `tag`
fields of the entities under `tweet['entities']`, flattened across entity
types in iteration order (`entityTags = []` models a tweet without an
`'entities'` key, which skips the entity loop). -/
structure Tweet where
  text : String
  entityTags : List String
  deriving Repr, DecidableEq

/-- Body of a tweets response: `hasData = false` models a JSON object with
no `'data'` key. -/
structure TweetsData where
  hasData : Bool
  data : List Tweet
  deriving Repr, DecidableEq

/-- The literal `{"data": []}` that `get_user_tweets` returns on failure. -/
def emptyTweets : TweetsData := { hasData := true, data := [] }

/-! ## TwitterAPIv2.get_user_tweets (lines 174-203) -/

/-- Message of `Exception(f"获取推文失败: {response.status_code}")` (line 199). -/
def tweetsFailMsg (code : Nat) : String :=
  "获取推文失败: " ++ toString code

/-- `TwitterAPIv2.get_user_tweets` (lines 174-203): the whole body is inside
`try`; `_check_rate_limit` may raise; a 200 returns `response.json()`
(a raising `response.json()` is also caught); a 404 returns `{"data": []}`
directly; any other status raises; the outer `except Exception` turns every
raised exception into `{"data": []}`.  Returns the possibly reset
rate-limit state and the result. -/
def get_user_tweets (rl : RateLimit) (now : Int) (resp : HttpOutcome TweetsData) :
    RateLimit × TweetsData :=
  match (checkRateLimit rl now).2 with
  | Except.error _ => ((checkRateLimit rl now).1, emptyTweets)
  | Except.ok _ =>
    match resp with
    | HttpOutcome.ok200 body => ((checkRateLimit rl now).1, body)
    | _ => ((checkRateLimit rl now).1, emptyTweets)

/-! ## TwitterAPIv2.get_user_by_username (lines 125-172) -/

/-- Message of `Exception("用户不存在")` (line 156). -/
def notFoundMsg : String := "用户不存在"

/-- Message of `Exception("认证失败，请检查Token")` (line 158). -/
def authFailMsg : String := "认证失败，请检查Token"

/-- Message of `Exception(f"API请求失败: {response.status_code}")` (line 160). -/
def apiFailMsg (code : Nat) : String :=
  "API请求失败: " ++ toString code

/-- Message of `Exception(f"网络请求失败: {str(e)}")` (line 164). -/
def netFailMsg (msg : String) : String :=
  "网络请求失败: " ++ msg

/-- The retry loop `for attempt in range(3)` of `get_user_by_username`
(lines 138-165): each attempt observes the outcome of its own request;
a 200 writes the body through to the cache and returns it; 404/401/other
statuses raise immediately (breaking the loop); a 200 with an unparseable
body raises a JSON error that the `except requests.exceptions.RequestException`
clause does not catch; a network error retries until `attempt == 2`, which
raises the network-failure message.  `fuel` counts the attempts still
allowed, starting at 3; `attempt` is the current index. -/
def attemptLoop (store : String → DiskRecord UserResponse) (now : Int)
    (resps : Nat → HttpOutcome UserResponse) (key : String) :
    (fuel attempt : Nat) → ((String → DiskRecord UserResponse) × Except String UserResponse) →
    (String → DiskRecord UserResponse) × Except String UserResponse
  | 0, _, dflt => dflt
  | fuel + 1, attempt, dflt =>
    match resps attempt with
    | HttpOutcome.ok200 body =>
      (TwitterCache.set store now key body, Except.ok body)
    | HttpOutcome.ok200corrupt => (store, Except.error corruptCacheMsg)
    | HttpOutcome.notFound404 => (store, Except.error notFoundMsg)
    | HttpOutcome.auth401 => (store, Except.error authFailMsg)
    | HttpOutcome.otherStatus code => (store, Except.error (apiFailMsg code))
    | HttpOutcome.netError msg =>
      if attempt = 2 then (store, Except.error (netFailMsg msg))
      else attemptLoop store now resps key fuel (attempt + 1) dflt

/-- `TwitterAPIv2.get_user_by_username` (lines 125-172): check the rate
limit, run up to 3 request attempts; on any exception, the outer
`except Exception` (line 167) attempts one cache read under
`f"user_{username}"` — that read may itself raise on a corrupt record, and
its exception replaces the original; a cached value is returned, an absent
one re-raises the original exception. -/
def get_user_by_username (store : String → DiskRecord UserResponse)
    (rl : RateLimit) (now : Int) (resps : Nat → HttpOutcome UserResponse)
    (username : String) :
    ((String → DiskRecord UserResponse) × RateLimit) × Except String UserResponse :=
  let key := "user_" ++ username
  let rl1 := (checkRateLimit rl now).1
  let inner : (String → DiskRecord UserResponse) × Except String UserResponse :=
    match (checkRateLimit rl now).2 with
    | Except.error e => (store, Except.error e)
    | Except.ok _ =>
      attemptLoop store now resps key 3 0 (store, Except.ok { data := none })
  match inner.2 with
  | Except.ok v => ((inner.1, rl1), Except.ok v)
  | Except.error e =>
    match TwitterCache.get inner.1 now key with
    | Except.ok (some cached) => ((inner.1, rl1), Except.ok cached)
    | Except.ok none => ((inner.1, rl1), Except.error e)
    | Except.error e2 => ((inner.1, rl1), Except.error e2)

/-! ## GiftAnalyzer (`gift_analyzer.py` lines 256-339) -/

/-- `GiftAnalyzer.interest_gift_mapping` (lines 261-270), in definition
order: each category maps to its fixed gift catalog. -/
def interest_gift_mapping : List (String × List String) :=
  [("科技", ["智能手表", "无线耳机", "平板电脑", "智能音箱"]),
   ("游戏", ["游戏机", "游戏周边", "游戏礼品卡", "游戏手柄"]),
   ("音乐", ["音乐会门票", "蓝牙音箱", "音乐订阅服务", "乐器"]),
   ("美食", ["美食礼券", "烹饪工具", "精品茶具", "咖啡器具"]),
   ("运动", ["运动手环", "运动装备", "健身器材", "运动鞋"]),
   ("读书", ["电子书阅读器", "精装图书", "读书订阅", "书签"]),
   ("艺术", ["艺术画作", "手工艺品", "相机", "绘画工具"]),
   ("时尚", ["品牌包包", "饰品", "香水", "时尚配件"])]

/-- The 8 category names, in definition order. -/
def catKeys : List String :=
  interest_gift_mapping.map Prod.fst

/-- Python `self.interest_gift_mapping[category]` as a partial lookup:
`none` models the `KeyError` an unknown category would raise. -/
def lookupCatalog (cat : String) : Option (List String) :=
  (interest_gift_mapping.find? (fun p => p.1 = cat)).map Prod.snd

/-- `GiftAnalyzer.sentiment_words["positive"]` (line 274). -/
def positiveWords : List String :=
  ["喜欢", "爱", "好", "棒", "赞", "享受", "期待", "感恩"]

/-- `GiftAnalyzer.sentiment_words["negative"]` (line 275). -/
def negativeWords : List String :=
  ["讨厌", "烦", "差", "糟", "失望", "难过", "生气"]

/-- Per-tweet sentiment contribution (lines 292-298): +1 for every positive
word occurring as a substring of the (already lowered) text, −1 for every
negative word; each word counts at most once per tweet. -/
def sentimentDelta (text : String) : Int :=
  (Int.ofNat (positiveWords.countP (fun w => strContains w text))) -
  (Int.ofNat (negativeWords.countP (fun w => strContains w text)))

/-- Interest counting from the tweet text (lines 300-304): for each category
in definition order, for each of its keywords, a keyword occurring as a
substring of the (lowered) text bumps the category count — once per
matching keyword. -/
def tweetTextInterests (acc : List (String × Nat)) (text : String) :
    List (String × Nat) :=
  interest_gift_mapping.foldl
    (fun acc1 p =>
      p.2.foldl
        (fun acc2 kw => if strContains kw text then dictIncr acc2 p.1 else acc2)
        acc1)
    acc

/-- Interest counting from entity tags (lines 306-313): for each entity tag
(lowered), for each category, the category count is bumped once per tag if
any of its keywords (lowered) occurs as a substring of the tag. -/
def tweetEntityInterests (acc : List (String × Nat)) (tags : List String) :
    List (String × Nat) :=
  tags.foldl
    (fun acc1 tag =>
      interest_gift_mapping.foldl
        (fun acc2 p =>
          if p.2.any (fun kw => strContains (pyLower kw) (pyLower tag))
          then dictIncr acc2 p.1 else acc2)
        acc1)
    acc

/-- Result of `GiftAnalyzer.analyze_tweets`: the insertion-ordered interest
counter and the averaged sentiment score (Python float, modelled in ℚ). -/
structure AnalysisResult where
  interests : List (String × Nat)
  sentiment : ℚ
  deriving Repr, DecidableEq

/-- One iteration of the `for tweet in tweets_data['data']` loop
(lines 287-313): lower the text, bump the tweet count, add the sentiment
delta, then count text interests and entity interests. -/
def analyzeStep (st : List (String × Nat) × Int × Nat) (tw : Tweet) :
    List (String × Nat) × Int × Nat :=
  let text := pyLower tw.text
  let ints := tweetEntityInterests (tweetTextInterests st.1 text) tw.entityTags
  (ints, st.2.1 + sentimentDelta text, st.2.2 + 1)

/-- `GiftAnalyzer.analyze_tweets` (lines 278-321): an absent or empty
`tweets_data`, or one without a `'data'` key, yields
`{"interests": {}, "sentiment": 0}`; otherwise one pass over the tweets
accumulates interests, the sentiment sum and the tweet count, and the
final sentiment is `sentiment_score / max(tweet_count, 1)` — Python true
division of two integers with a positive denominator, whose exact value
is `mkRat`. -/
def analyze_tweets (td : TweetsData) : AnalysisResult :=
  if td.hasData = false then { interests := [], sentiment := 0 }
  else
    let st := td.data.foldl analyzeStep ([], 0, 0)
    { interests := st.1
      sentiment := mkRat st.2.1 (max st.2.2 1) }

/-- The fixed fallback list of `recommend_gifts` (line 330). -/
def genericGifts : List String :=
  ["通用礼品卡", "精美礼品盒", "手工巧克力"]

/-- Message of the `KeyError` that `self.interest_gift_mapping[category]`
would raise for a category outside the mapping. -/
def keyErrorMsg (cat : String) : String :=
  "KeyError: " ++ cat

/-- One iteration of the recommendation loop (lines 336-337):
`recommendations.extend(self.interest_gift_mapping[category][:2])` — the
catalog subscript is a dict access that raises `KeyError` on an unknown
category, hence the `Except`. -/
def recommendStep (acc : List String) (p : String × Nat) : Except String (List String) :=
  match lookupCatalog p.1 with
  | some gifts => Except.ok (acc ++ gifts.take 2)
  | none => Except.error (keyErrorMsg p.1)

/-- `GiftAnalyzer.recommend_gifts` (lines 323-339): an empty interest dict
returns the fixed 3-item generic list; otherwise the interest items are
stably sorted by count descending, the loop extends the result with the
first 2 gifts of each of the top 3 categories, and the result is truncated
to 5. -/
def recommend_gifts (interests : List (String × Nat)) : Except String (List String) :=
  if interests.isEmpty then Except.ok genericGifts
  else
    (((pySortedDesc interests).take 3).foldlM recommendStep ([] : List String)).map
      (fun (l : List String) => l.take 5)

/-! ## Report formatting (`gift_analyzer.py` lines 447-498) -/

/-- The `{percentage:.1f}` rendering of `count / total * 100` (line 454):
one decimal digit.  Python rounds the nearest binary float half-to-even;
the embedding rounds the exact rational half-up, which agrees on the
program's inputs of interest. -/
def formatPct (count total : Nat) : String :=
  if total = 0 then "0.0"
  else
    let m := (count * 1000 * 2 + total) / (2 * total)
    toString (m / 10) ++ "." ++ toString (m % 10)

/-- `_format_topics` (lines 447-456). -/
def formatTopics (topics : List (String × Nat)) (total : Nat) : String :=
  if topics.isEmpty then "暂无明显主题"
  else
    String.intercalate "\n"
      (topics.map (fun (p : String × Nat) =>
        "- " ++ p.1 ++ ": " ++ formatPct p.2 total ++ "% (" ++ toString p.2 ++ "条推文)"))

/-- `_format_keywords` (lines 458-463). -/
def formatKeywords (keywords : List (String × Nat)) : String :=
  if keywords.isEmpty then "暂无高频关键词"
  else
    String.intercalate "\n"
      (keywords.map (fun (p : String × Nat) => "- " ++ p.1 ++ ": 出现" ++ toString p.2 ++ "次"))

/-- `_interpret_sentiment` (lines 483-494), with the source's branch order
(the literals `0.5` and `-0.5` written as exact rationals). -/
def interpretSentiment (score : ℚ) : String :=
  if mkRat 1 2 < score then "非常积极"
  else if 0 < score then "较为积极"
  else if score = 0 then "中性"
  else if mkRat (-1) 2 < score then "较为消极"
  else "非常消极"

/-- `_format_analysis_result` (lines 465-481): a list of lines joined by
newlines — the interest lines (sorted by count descending) or a
no-interest notice, then the sentiment line (which itself starts with a
newline, as in the source). -/
def formatAnalysisResult (a : AnalysisResult) : String :=
  let head :=
    if a.interests.isEmpty then ["暂无明显兴趣倾向"]
    else "用户兴趣倾向：" :: (pySortedDesc a.interests).map (fun p => "- " ++ p.1)
  String.intercalate "\n" (head ++ ["\n情感倾向: " ++ interpretSentiment a.sentiment])

/-- `_format_recommendations` (lines 496-498). -/
def formatRecommendations (gifts : List String) : String :=
  String.intercalate "\n" (gifts.map (fun g => "- " ++ g))

/-! ## analyze_twitter_profile (`gift_analyzer.py` lines 341-445) -/

/-- Per-tweet topic statistics of the report body (lines 386-391): one bump
per tweet per category whose keywords (lowered) hit the lowered text. -/
def tweetTopicsStep (acc : List (String × Nat)) (tw : Tweet) : List (String × Nat) :=
  let text := pyLower tw.text
  interest_gift_mapping.foldl
    (fun a p => if p.2.any (fun w => strContains (pyLower w) text) then dictIncr a p.1 else a)
    acc

/-- Per-tweet keyword statistics of the report body (lines 393-397): split
the lowered text on whitespace and count words longer than 3 characters. -/
def keywordsStep (acc : List (String × Nat)) (tw : Tweet) : List (String × Nat) :=
  (pySplit (pyLower tw.text)).foldl
    (fun a w => if 3 < w.length then dictIncr a w else a)
    acc

/-- The success report f-string (lines 403-422), with the topic and keyword
statistics computed in the function body (lines 381-401; the source builds
both counters in one loop over the tweets — two folds over the same list
are equivalent since the counters are independent). -/
def successReport (tweets : TweetsData) (analysis : AnalysisResult)
    (gifts : List String) : String :=
  let dataList := if tweets.hasData then tweets.data else []
  let total := dataList.length
  let topTopics := (pySortedDesc (dataList.foldl tweetTopicsStep [])).take 3
  let topKeywords := (pySortedDesc (dataList.foldl keywordsStep [])).take 5
  "\n# X用户推文分析报告\n\n## 推文分析\n- 分析时间范围：最近7天\n- 分析推文数量：" ++
    toString total ++ "条\n\n### 主要话题\n" ++ formatTopics topTopics total ++
    "\n\n### 高频关键词\n" ++ formatKeywords topKeywords ++
    "\n\n## 分析结果\n" ++ formatAnalysisResult analysis ++
    "\n\n## 礼物推荐\n基于以上分析，为您推荐以下礼物：\n" ++
    formatRecommendations gifts ++ "\n"

/-- The invalid-username report (line 349). -/
def invalidUsernameReport : String :=
  "# ⚠️ 无效的用户名\n\n请输入有效的Twitter用户名（不需要包含@符号）"

/-- The invalid-user-data report (line 361). -/
def invalidDataReport : String :=
  "# ❌ 无效的用户数据\n\n无法获取用户信息，请稍后重试"

/-- The not-found report (line 427). -/
def notFoundReport : String :=
  "# ❌ 用户不存在\n\n该用户名不存在，请检查拼写是否正确"

/-- The auth-failure report (line 429). -/
def authFailReport : String :=
  "# ❌ 认证失败\n\n请检查API Token是否有效"

/-- The generic failure report of the outer handler (lines 434-445). -/
def genericFailReport (e : String) : String :=
  "\n# ❌ 分析失败\n\n错误信息: " ++ e ++
    "\n\n请确保：\n1. 输入的用户名正确\n2. 该用户存在且未被限制访问\n3. 网络连接正常\n\n建议稍后重试。\n"

/-- Message of the `KeyError` raised by `user_info['id']` (line 364) when
the response data object has no id field (Python renders it as the quoted
key name). -/
def keyErrorIdMsg : String := "KeyError: id"

/-- The inputs the program receives from its surroundings during one run:
whether `TwitterAPIv2()` construction raises (e.g. the cache-directory
creation of `TwitterCache.__init__`), the pre-existing on-disk cache, the
outcome of each user-lookup attempt, the outcome of the tweets request,
and the clock. -/
structure Env where
  ctorFail : Option String
  store : String → DiskRecord UserResponse
  userResps : Nat → HttpOutcome UserResponse
  tweetsResp : HttpOutcome TweetsData
  now : Int

/-- Body of the outer `try` of `analyze_twitter_profile` (lines 344-430):
construct the client, validate and normalize the username, fetch the user,
fetch the tweets only when `rate_limit["remaining"] > 1` (line 370 — the
`try` around `get_user_tweets` is vacuous, since that function handles its
own exceptions), analyze, recommend, and format; the inner
`except Exception` (lines 424-430) maps exceptions whose text contains
`用户不存在` or `认证失败` to their reports and re-raises the rest.
`.error` is an exception escaping to the outer handler. -/
def analyzeBody (env : Env) (username : String) : Except String String :=
  match env.ctorFail with
  | some msg => Except.error msg
  | none =>
    if pyStrip username = "" then Except.ok invalidUsernameReport
    else
      let uname := lstripAt (pyStrip username)
      let innerRes : Except String String :=
        match get_user_by_username env.store (initRateLimit env.now) env.now
            env.userResps uname with
        | (_, Except.error e) => Except.error e
        | ((_, rl1), Except.ok user_data) =>
          match user_data.data with
          | none => Except.ok invalidDataReport
          | some info =>
            match info.id with
            | none => Except.error keyErrorIdMsg
            | some _ =>
              let tr : RateLimit × TweetsData :=
                if 1 < rl1.remaining
                then get_user_tweets rl1 env.now env.tweetsResp
                else (rl1, emptyTweets)
              let analysis := analyze_tweets tr.2
              match recommend_gifts analysis.interests with
              | Except.error e => Except.error e
              | Except.ok gifts => Except.ok (successReport tr.2 analysis gifts)
      match innerRes with
      | Except.ok s => Except.ok s
      | Except.error e =>
        if strContains notFoundMsg e then Except.ok notFoundReport
        else if strContains "认证失败" e then Except.ok authFailReport
        else Except.error e

/-- `analyze_twitter_profile` (lines 341-445): the outer
`except Exception` (lines 432-445) renders any escaping exception as the
generic failure report, so the function itself returns a value on every
path; a `.error` result would model an exception reaching the caller. -/
def analyze_twitter_profile (env : Env) (username : String) : Except String String :=
  match analyzeBody env username with
  | Except.ok s => Except.ok s
  | Except.error e => Except.ok (genericFailReport e)

/-! ## Concrete fixtures and call iteration -/

/-- An empty cache directory. -/
def emptyStore : String → DiskRecord UserResponse :=
  fun _ => DiskRecord.missing

/-- A well-formed user-lookup response body. -/
def demoUser : UserResponse := { data := some { id := some "123" } }

/-- An HTTP world in which every user-lookup request succeeds with
`demoUser`. -/
def allOk200 : Nat → HttpOutcome UserResponse :=
  fun _ => HttpOutcome.ok200 demoUser

/-- Run `n` consecutive `get_user_by_username` calls at a fixed instant,
threading the cache store and the rate-limit state. -/
def iterateCalls (resps : Nat → HttpOutcome UserResponse) (now : Int)
    (username : String) :
    Nat → ((String → DiskRecord UserResponse) × RateLimit) →
    (String → DiskRecord UserResponse) × RateLimit
  | 0, st => st
  | n + 1, st =>
    iterateCalls resps now username n (get_user_by_username st.1 st.2 now resps username).1

/-- Check that `n` consecutive `get_user_by_username` calls at a fixed
instant all return successfully. -/
def callsAllOk (resps : Nat → HttpOutcome UserResponse) (now : Int)
    (username : String) :
    Nat → ((String → DiskRecord UserResponse) × RateLimit) → Bool
  | 0, _ => true
  | n + 1, st =>
    match get_user_by_username st.1 st.2 now resps username with
    | (st1, Except.ok _) => callsAllOk resps now username n st1
    | (_, Except.error _) => false

/-- The spec's sentiment example: `["我喜欢这个", "我讨厌这个"]` as a
tweets payload. -/
def exampleTwoPosts : TweetsData :=
  { hasData := true
    data := [{ text := "我喜欢这个", entityTags := [] },
             { text := "我讨厌这个", entityTags := [] }] }

/-- A tweets payload with one tweet hitting one 科技 keyword. -/
def tdTech : TweetsData :=
  { hasData := true, data := [{ text := "智能手表真好", entityTags := [] }] }

/-! ## Theorems -/

/-- Reading a key right after writing it sees the fresh entry and applies
the age filter to it. -/
theorem TwitterCache.get_set_same {α : Type} (store : String → DiskRecord α)
    (t0 t1 : Int) (k : String) (v : α) :
    TwitterCache.get (TwitterCache.set store t0 k v) t1 k =
      if t1 - t0 < cacheDuration then Except.ok (some v) else Except.ok none := by
  unfold TwitterCache.get TwitterCache.set
  simp

/-- C3: cache round-trip — `set(k, v)` followed by `get(k)` within the cache
duration returns `v` unchanged (wrapped in `some`, without raising); once
the duration has elapsed since the write, `get(k)` returns `none` rather
than the stored value or an error. -/
theorem cache_roundtrip (α : Type) (store : String → DiskRecord α) (t0 t1 : Int)
    (k : String) (v : α) :
    (t1 - t0 < cacheDuration →
      TwitterCache.get (TwitterCache.set store t0 k v) t1 k = Except.ok (some v)) ∧
    (cacheDuration ≤ t1 - t0 →
      TwitterCache.get (TwitterCache.set store t0 k v) t1 k = Except.ok none) := by
  rw [TwitterCache.get_set_same]
  constructor
  · intro h
    rw [if_pos h]
  · intro h
    rw [if_neg (not_lt.mpr h)]

/-- Witness for `cache_roundtrip` at a concrete store, key, value and pair
of instants (10 seconds and exactly 24 hours after the write). -/
theorem cache_roundtrip_witness :
    TwitterCache.get (TwitterCache.set (fun _ => DiskRecord.missing) 0 "user_alice" 7)
        10 "user_alice" = Except.ok (some 7) ∧
    TwitterCache.get (TwitterCache.set (fun _ => DiskRecord.missing) 0 "user_alice" 7)
        86400 "user_alice" = Except.ok none :=
  ⟨(cache_roundtrip Nat (fun _ => DiskRecord.missing) 0 10 "user_alice" 7).1 (by decide),
   (cache_roundtrip Nat (fun _ => DiskRecord.missing) 0 86400 "user_alice" 7).2 (by decide)⟩

/-- C8 (failing input): `TwitterCache.get` on a key whose on-disk record is
corrupt raises (`json.load` / `datetime.fromisoformat` has no handler in
`get`, lines 25-34), instead of returning `None` as the spec requires. -/
theorem cache_corrupt_read_raises :
    TwitterCache.get (fun _ => (DiskRecord.corrupt : DiskRecord UserResponse)) 0 "user_alice"
      = Except.error corruptCacheMsg :=
  rfl

/-- C4: whenever the rate check runs at an instant at or past `reset_time`
(and the configured window limit exceeds the 2-call buffer, as the
program's constant 25 does), the state is first reset — `remaining`
becomes `requests_per_window` and `reset_time` becomes
`now + window_size` minutes — and only then is the remaining count
examined, so the call is not refused for window exhaustion. -/
theorem window_reset_precedes_remaining_check (rl : RateLimit) (now : Int)
    (hreset : rl.reset_time ≤ now) (hwin : 2 < rl.requests_per_window) :
    (checkRateLimit rl now).1.remaining = rl.requests_per_window ∧
    (checkRateLimit rl now).1.reset_time = now + rl.window_size * 60 ∧
    (checkRateLimit rl now).2 = Except.ok () := by
  unfold checkRateLimit resetIfElapsed
  rw [if_pos hreset]
  rw [if_neg (by simp only []; omega)]
  exact ⟨rfl, rfl, rfl⟩

/-- Witness for `window_reset_precedes_remaining_check`: a depleted state
whose window elapsed 50 seconds ago is reset and the check passes. -/
theorem window_reset_precedes_remaining_check_witness :
    (checkRateLimit
        { remaining := 0, reset_time := 50, requests_per_window := 25, window_size := 15 }
        100).1.remaining = 25 ∧
    (checkRateLimit
        { remaining := 0, reset_time := 50, requests_per_window := 25, window_size := 15 }
        100).1.reset_time = 100 + 15 * 60 ∧
    (checkRateLimit
        { remaining := 0, reset_time := 50, requests_per_window := 25, window_size := 15 }
        100).2 = Except.ok () :=
  window_reset_precedes_remaining_check
    { remaining := 0, reset_time := 50, requests_per_window := 25, window_size := 15 }
    100 (by decide) (by decide)

/-- C9 (counterexample): the rate-limit state of the source has no monthly
counter at all — `monthly_used` is not among the keys of the
`self.rate_limit` dict, so no `MonthlyExhausted` condition can be
"checked first". -/
theorem rate_limit_has_no_monthly_counter :
    "monthly_used" ∉ rateLimitKeys := by
  decide

/-- C9 (amended): the rate-limit state tracks only the four window fields;
every refusal issued by `_check_rate_limit` is the window-buffer refusal
(`remaining <= 2` after the lazy reset) and always carries a strictly
positive wait time `reset_time - now` — there is no monthly check and no
refusal without a wait time. -/
theorem rate_refusals_are_windowed_with_wait (rl : RateLimit) (now : Int) :
    rateLimitKeys = ["remaining", "reset_time", "requests_per_window", "window_size"] ∧
    ((checkRateLimit rl now).2 = Except.ok () ∨
      ∃ w, 0 < w ∧ (checkRateLimit rl now).2 = Except.error (rateLimitMsg w)) := by
  refine ⟨rfl, ?_⟩
  unfold checkRateLimit
  by_cases h1 : (resetIfElapsed rl now).remaining ≤ 2
  · rw [if_pos h1]
    by_cases h2 : 0 < (resetIfElapsed rl now).reset_time - now
    · rw [if_pos h2]
      exact Or.inr ⟨(resetIfElapsed rl now).reset_time - now, h2, rfl⟩
    · rw [if_neg h2]
      exact Or.inl rfl
  · rw [if_neg h1]
    exact Or.inl rfl

/-- Witness for `rate_refusals_are_windowed_with_wait` at a depleted state
inside its window (the refusing branch). -/
theorem rate_refusals_are_windowed_with_wait_witness :
    rateLimitKeys = ["remaining", "reset_time", "requests_per_window", "window_size"] ∧
    ((checkRateLimit
        { remaining := 0, reset_time := 100, requests_per_window := 25, window_size := 15 }
        40).2 = Except.ok () ∨
      ∃ w, 0 < w ∧
        (checkRateLimit
          { remaining := 0, reset_time := 100, requests_per_window := 25, window_size := 15 }
          40).2 = Except.error (rateLimitMsg w)) :=
  rate_refusals_are_windowed_with_wait
    { remaining := 0, reset_time := 100, requests_per_window := 25, window_size := 15 } 40

/-- C7: `get_user_tweets` returns the empty post list `{"data": []}` on
every outcome of the posts request other than a parseable 200 — 404, 401,
any other status, a network failure, an unparseable 200 — and likewise
whenever the rate check refuses, whatever the request outcome would have
been; no error propagates to the enclosing analysis. -/
theorem tweets_fetch_failures_yield_empty (rl : RateLimit) (now : Int)
    (resp : HttpOutcome TweetsData) :
    ((∀ b, resp ≠ HttpOutcome.ok200 b) →
      (get_user_tweets rl now resp).2 = emptyTweets) ∧
    (∀ e, (checkRateLimit rl now).2 = Except.error e →
      (get_user_tweets rl now resp).2 = emptyTweets) := by
  constructor
  · intro h
    unfold get_user_tweets
    cases hc : (checkRateLimit rl now).2 with
    | error e => rfl
    | ok u =>
      cases resp with
      | ok200 body => exact absurd rfl (h body)
      | ok200corrupt => rfl
      | notFound404 => rfl
      | auth401 => rfl
      | otherStatus code => rfl
      | netError msg => rfl
  · intro e he
    unfold get_user_tweets
    rw [he]

/-- Witness for `tweets_fetch_failures_yield_empty`: a fresh client whose
posts request comes back 404 gets `{"data": []}`. -/
theorem tweets_fetch_failures_yield_empty_witness :
    (get_user_tweets (initRateLimit 0) 0 HttpOutcome.notFound404).2 = emptyTweets :=
  (tweets_fetch_failures_yield_empty (initRateLimit 0) 0 HttpOutcome.notFound404).1
    (fun _ h => HttpOutcome.noConfusion h)

/-- C1: for every environment (construction outcome, pre-existing cache
contents, user-lookup and posts-request outcomes, clock) and every input
handle string, `analyze_twitter_profile` returns a report string — a
`.error` result, which would model an exception escaping to the caller,
never occurs: the outer handler renders every escaping exception as the
generic failure report. -/
theorem analyze_profile_always_returns_report (env : Env) (username : String) :
    ∃ report, analyze_twitter_profile env username = Except.ok report := by
  unfold analyze_twitter_profile
  cases h : analyzeBody env username with
  | ok s => exact ⟨s, rfl⟩
  | error e => exact ⟨genericFailReport e, rfl⟩

set_option maxRecDepth 100000 in
/-- C2 (failing input): starting from a fresh client, 25 consecutive
`get_user_by_username` calls inside one window all succeed, yet afterwards
`rate_limit["remaining"]` still equals 25 — no code path decrements it —
and the 26th call also succeeds instead of being refused with a positive
wait time, contradicting the claimed decrement-on-success behaviour. -/
theorem rate_remaining_never_decremented :
    callsAllOk allOk200 0 "alice" 25 (emptyStore, initRateLimit 0) = true ∧
    (iterateCalls allOk200 0 "alice" 25 (emptyStore, initRateLimit 0)).2.remaining = 25 ∧
    (get_user_by_username
        (iterateCalls allOk200 0 "alice" 25 (emptyStore, initRateLimit 0)).1
        (iterateCalls allOk200 0 "alice" 25 (emptyStore, initRateLimit 0)).2
        0 allOk200 "alice").2 = Except.ok demoUser :=
  ⟨rfl, rfl, rfl⟩

/-- A predicate preserved by every step of a left fold holds of the result. -/
theorem foldl_preserve {α β : Type} {P : β → Prop} {f : β → α → β} :
    ∀ (l : List α) (b : β), P b → (∀ x a, a ∈ l → P x → P (f x a)) →
      P (l.foldl f b) := by
  intro l
  induction l with
  | nil => intro b hb _; exact hb
  | cons a t ih =>
    intro b hb hf
    simp only [List.foldl_cons]
    exact ih (f b a) (hf b a (List.mem_cons_self a t) hb)
      (fun x a2 ha2 hx => hf x a2 (List.mem_cons_of_mem a ha2) hx)

/-- Membership in a stable descending insertion. -/
theorem mem_insertByCountDesc {x y : String × Nat} {l : List (String × Nat)} :
    y ∈ insertByCountDesc x l ↔ y = x ∨ y ∈ l := by
  induction l with
  | nil => simp [insertByCountDesc]
  | cons a t ih =>
    unfold insertByCountDesc
    by_cases h : x.2 < a.2
    · rw [if_pos h]
      simp only [List.mem_cons, ih]
      tauto
    · rw [if_neg h]
      simp only [List.mem_cons]

/-- Stable descending insertion grows the length by one. -/
theorem length_insertByCountDesc (x : String × Nat) (l : List (String × Nat)) :
    (insertByCountDesc x l).length = l.length + 1 := by
  induction l with
  | nil => rfl
  | cons a t ih =>
    unfold insertByCountDesc
    by_cases h : x.2 < a.2
    · rw [if_pos h]
      simp [ih]
    · rw [if_neg h]
      simp

/-- The stable descending sort is a permutation membership-wise. -/
theorem mem_pySortedDesc {y : String × Nat} {l : List (String × Nat)} :
    y ∈ pySortedDesc l ↔ y ∈ l := by
  induction l with
  | nil => simp [pySortedDesc]
  | cons a t ih =>
    unfold pySortedDesc at ih ⊢
    simp only [List.foldr_cons, mem_insertByCountDesc, List.mem_cons, ih]

/-- The stable descending sort preserves length. -/
theorem length_pySortedDesc (l : List (String × Nat)) :
    (pySortedDesc l).length = l.length := by
  induction l with
  | nil => rfl
  | cons a t ih =>
    unfold pySortedDesc at ih ⊢
    simp only [List.foldr_cons, length_insertByCountDesc, List.length_cons, ih]

/-- A category listed in `catKeys` has a catalog entry. -/
theorem lookupCatalog_isSome_of_mem {c : String} (h : c ∈ catKeys) :
    ∃ g, lookupCatalog c = some g := by
  unfold catKeys at h
  obtain ⟨p, hp, hpc⟩ := List.mem_map.mp h
  have hsome : (interest_gift_mapping.find? (fun q => q.1 = c)).isSome :=
    List.find?_isSome.mpr ⟨p, hp, by simp [hpc]⟩
  obtain ⟨q, hq⟩ := Option.isSome_iff_exists.mp hsome
  exact ⟨q.2, by unfold lookupCatalog; rw [hq]; rfl⟩

/-- When every category in the list has a catalog entry, the recommendation
loop never raises and concatenates the first-2-gift blocks in order. -/
theorem foldlM_recommendStep (l : List (String × Nat)) :
    ∀ acc : List String, (∀ p ∈ l, p.1 ∈ catKeys) →
      l.foldlM recommendStep acc =
        Except.ok (acc ++ l.flatMap (fun p => ((lookupCatalog p.1).getD []).take 2)) := by
  induction l with
  | nil =>
    intro acc _
    simp only [List.foldlM_nil, List.flatMap_nil, List.append_nil]
    rfl
  | cons p t ih =>
    intro acc h
    obtain ⟨g, hg⟩ := lookupCatalog_isSome_of_mem (h p (List.mem_cons_self p t))
    have hstep : recommendStep acc p = Except.ok (acc ++ g.take 2) := by
      unfold recommendStep
      rw [hg]
    rw [List.foldlM_cons, hstep]
    show List.foldlM recommendStep (acc ++ g.take 2) t = _
    rw [ih (acc ++ g.take 2) (fun q hq => h q (List.mem_cons_of_mem p hq))]
    simp [hg, List.flatMap_cons, List.append_assoc]

/-- When every interest key has a catalog entry, `recommend_gifts` succeeds
and equals the spec-described pipeline: an empty dict gives the generic
list, otherwise stable-descending sort, top 3, first 2 gifts each,
truncated to 5. -/
theorem recommend_gifts_eq (ints : List (String × Nat))
    (h : ∀ p ∈ ints, p.1 ∈ catKeys) :
    recommend_gifts ints =
      Except.ok (if ints.isEmpty then genericGifts
        else (((pySortedDesc ints).take 3).flatMap
          (fun p => ((lookupCatalog p.1).getD []).take 2)).take 5) := by
  unfold recommend_gifts
  by_cases he : ints.isEmpty
  · rw [if_pos he, if_pos he]
  · rw [if_neg he, if_neg he]
    rw [foldlM_recommendStep ((pySortedDesc ints).take 3) []
      (fun p hp => h p (mem_pySortedDesc.mp (List.mem_of_mem_take hp)))]
    simp [Except.map]

/-- C6: for every interest dict whose keys are catalog categories (as all
dicts produced by the analyzer are), `recommend_gifts` returns exactly the
fixed 3-item generic list when the dict is empty, and otherwise the
categories stably sorted by count descending (ties keeping the dict's
order), cut to the top 3, each contributing the first 2 gift names of its
fixed catalog entry in that order, the whole list truncated to 5 items. -/
theorem recommend_is_sorted_top3_first2_take5 (ints : List (String × Nat))
    (h : ∀ p ∈ ints, p.1 ∈ catKeys) :
    recommend_gifts ints =
      Except.ok (if ints.isEmpty then genericGifts
        else (((pySortedDesc ints).take 3).flatMap
          (fun p => ((lookupCatalog p.1).getD []).take 2)).take 5) :=
  recommend_gifts_eq ints h

/-- Witness for `recommend_is_sorted_top3_first2_take5` at the spec's
example `{"科技": 3, "游戏": 1}`: exactly the first two catalog items for
科技 followed by the first two for 游戏. -/
theorem recommend_is_sorted_top3_first2_take5_witness :
    recommend_gifts [("科技", 3), ("游戏", 1)] =
      Except.ok ["智能手表", "无线耳机", "游戏机", "游戏周边"] :=
  (recommend_is_sorted_top3_first2_take5 [("科技", 3), ("游戏", 1)] (by decide)).trans
    (by rfl)

/-- The sentiment sum and the tweet count accumulated by the analyzer loop:
the sum of the per-tweet deltas and the list length. -/
theorem analyzeFold_counts (l : List Tweet) :
    ∀ acc : List (String × Nat) × Int × Nat,
      (l.foldl analyzeStep acc).2.1 =
        acc.2.1 + (l.map (fun tw => sentimentDelta (pyLower tw.text))).sum ∧
      (l.foldl analyzeStep acc).2.2 = acc.2.2 + l.length := by
  induction l with
  | nil => intro acc; simp
  | cons tw t ih =>
    intro acc
    obtain ⟨h1, h2⟩ := ih (analyzeStep acc tw)
    simp only [List.foldl_cons, List.map_cons, List.sum_cons, List.length_cons]
    constructor
    · rw [h1]
      simp only [analyzeStep]
      omega
    · rw [h2]
      simp only [analyzeStep]
      omega

/-- C5: for every tweets payload carrying a post list, the sentiment
returned by `analyze_tweets` is the sum over all posts of
(positive-word substring hits − negative-word substring hits), divided by
`max(postCount, 1)`; in particular the spec's two-post example yields
sentiment 0 with no interests, and the empty post list yields empty
interests and sentiment 0 with no division error. -/
theorem analyze_sentiment_formula :
    (∀ td : TweetsData, td.hasData = true →
      (analyze_tweets td).sentiment =
        (((td.data.map (fun tw => sentimentDelta (pyLower tw.text))).sum : Int) : ℚ) /
          ((max td.data.length 1 : Nat) : ℚ)) ∧
    analyze_tweets exampleTwoPosts = { interests := [], sentiment := 0 } ∧
    analyze_tweets { hasData := true, data := [] } = { interests := [], sentiment := 0 } := by
  refine ⟨?_, by decide, by decide⟩
  intro td h
  obtain ⟨h1, h2⟩ := analyzeFold_counts td.data ([], 0, 0)
  unfold analyze_tweets
  rw [if_neg (by rw [h]; exact fun hc => Bool.noConfusion hc)]
  show mkRat (td.data.foldl analyzeStep ([], 0, 0)).2.1
      (max (td.data.foldl analyzeStep ([], 0, 0)).2.2 1) = _
  rw [h1, h2]
  simp only [Int.zero_add, Nat.zero_add]
  rw [Rat.mkRat_eq_divInt, Rat.divInt_eq_div]
  norm_cast

/-- Witness for `analyze_sentiment_formula` at the spec's two-post example,
with the formula's value computed explicitly. -/
theorem analyze_sentiment_formula_witness :
    (analyze_tweets exampleTwoPosts).sentiment =
      (((exampleTwoPosts.data.map (fun tw => sentimentDelta (pyLower tw.text))).sum : Int) : ℚ) /
        ((max exampleTwoPosts.data.length 1 : Nat) : ℚ) ∧
    (analyze_tweets exampleTwoPosts).sentiment = 0 :=
  ⟨analyze_sentiment_formula.1 exampleTwoPosts rfl, by decide⟩

/-- `dictIncr` preserves the analyzer-dict invariant: keys are catalog
categories and counts are strictly positive. -/
theorem dictIncr_inv (d : List (String × Nat)) (k : String) :
    (∀ p ∈ d, p.1 ∈ catKeys ∧ 0 < p.2) → k ∈ catKeys →
    ∀ p ∈ dictIncr d k, p.1 ∈ catKeys ∧ 0 < p.2 := by
  induction d with
  | nil =>
    intro _ hk p hp
    simp only [dictIncr, List.mem_singleton] at hp
    subst hp
    exact ⟨hk, Nat.one_pos⟩
  | cons a t ih =>
    intro hd hk p hp
    obtain ⟨k0, v⟩ := a
    simp only [dictIncr] at hp
    by_cases h0 : k0 = k
    · rw [if_pos h0] at hp
      rcases List.mem_cons.mp hp with h | h
      · subst h
        have hm := hd (k0, v) (List.mem_cons_self _ _)
        exact ⟨hm.1, by omega⟩
      · exact hd p (List.mem_cons_of_mem _ h)
    · rw [if_neg h0] at hp
      rcases List.mem_cons.mp hp with h | h
      · subst h
        exact hd (k0, v) (List.mem_cons_self _ _)
      · exact ih (fun q hq => hd q (List.mem_cons_of_mem _ hq)) hk p h

/-- Text-based interest counting preserves the analyzer-dict invariant. -/
theorem tweetTextInterests_inv (acc : List (String × Nat)) (text : String)
    (h : ∀ p ∈ acc, p.1 ∈ catKeys ∧ 0 < p.2) :
    ∀ p ∈ tweetTextInterests acc text, p.1 ∈ catKeys ∧ 0 < p.2 := by
  unfold tweetTextInterests
  apply foldl_preserve (P := fun (d : List (String × Nat)) => ∀ p ∈ d, p.1 ∈ catKeys ∧ 0 < p.2) _ _ h
  intro x q hq hx
  apply foldl_preserve (P := fun (d : List (String × Nat)) => ∀ p ∈ d, p.1 ∈ catKeys ∧ 0 < p.2) _ _ hx
  intro y kw _ hy
  cases hc : strContains kw text
  · simpa [hc] using hy
  · simp only [hc, if_true]
    exact dictIncr_inv y q.1 hy (by unfold catKeys; exact List.mem_map_of_mem Prod.fst hq)

/-- Entity-tag interest counting preserves the analyzer-dict invariant. -/
theorem tweetEntityInterests_inv (acc : List (String × Nat)) (tags : List String)
    (h : ∀ p ∈ acc, p.1 ∈ catKeys ∧ 0 < p.2) :
    ∀ p ∈ tweetEntityInterests acc tags, p.1 ∈ catKeys ∧ 0 < p.2 := by
  unfold tweetEntityInterests
  apply foldl_preserve (P := fun (d : List (String × Nat)) => ∀ p ∈ d, p.1 ∈ catKeys ∧ 0 < p.2) _ _ h
  intro x tag _ hx
  apply foldl_preserve (P := fun (d : List (String × Nat)) => ∀ p ∈ d, p.1 ∈ catKeys ∧ 0 < p.2) _ _ hx
  intro y q hq hy
  cases hc : q.2.any (fun kw => strContains (pyLower kw) (pyLower tag))
  · simpa [hc] using hy
  · simp only [hc, if_true]
    exact dictIncr_inv y q.1 hy (by unfold catKeys; exact List.mem_map_of_mem Prod.fst hq)

/-- The interests dict built by `analyze_tweets` satisfies the invariant:
every key is one of the 8 catalog categories and every count is strictly
positive. -/
theorem analyze_tweets_interests_inv (td : TweetsData) :
    ∀ p ∈ (analyze_tweets td).interests, p.1 ∈ catKeys ∧ 0 < p.2 := by
  unfold analyze_tweets
  by_cases h : td.hasData = false
  · rw [if_pos h]
    intro p hp
    exact absurd hp (List.not_mem_nil p)
  · rw [if_neg h]
    show ∀ p ∈ (td.data.foldl analyzeStep ([], 0, 0)).1, p.1 ∈ catKeys ∧ 0 < p.2
    apply foldl_preserve
      (P := fun (st : List (String × Nat) × Int × Nat) => ∀ p ∈ st.1, p.1 ∈ catKeys ∧ 0 < p.2)
    · intro p hp
      exact absurd hp (List.not_mem_nil p)
    · intro x tw _ hx
      exact tweetEntityInterests_inv _ _ (tweetTextInterests_inv x.1 (pyLower tw.text) hx)

/-- Every catalog category has at least two gifts, so each selected block
has exactly 2 entries. -/
theorem catalog_take2_len : ∀ c ∈ catKeys, (((lookupCatalog c).getD []).take 2).length = 2 := by
  decide

/-- C10 (implicit): the interests mapping produced by `analyze_tweets` has
keys drawn only from the 8 fixed categories and strictly positive counts;
consequently `recommend_gifts` on such a result never fails its catalog
lookup, and a non-empty mapping yields between 2 and 5 gift names, each
taken from the catalog entry of one of the top-3 sorted categories. -/
theorem analyze_then_recommend_safe (td : TweetsData) :
    (∀ p ∈ (analyze_tweets td).interests, p.1 ∈ catKeys ∧ 0 < p.2) ∧
    ∃ gifts, recommend_gifts (analyze_tweets td).interests = Except.ok gifts ∧
      ((analyze_tweets td).interests ≠ [] →
        2 ≤ gifts.length ∧ gifts.length ≤ 5 ∧
        ∀ g ∈ gifts, ∃ p ∈ (pySortedDesc (analyze_tweets td).interests).take 3,
          g ∈ (lookupCatalog p.1).getD []) := by
  have hinv := analyze_tweets_interests_inv td
  refine ⟨hinv, ?_⟩
  have hkeys : ∀ p ∈ (analyze_tweets td).interests, p.1 ∈ catKeys :=
    fun p hp => (hinv p hp).1
  rw [recommend_gifts_eq _ hkeys]
  by_cases he : (analyze_tweets td).interests.isEmpty
  · exact ⟨genericGifts, by rw [if_pos he],
      fun hne => absurd (List.isEmpty_iff.mp he) hne⟩
  · rw [if_neg he]
    refine ⟨_, rfl, fun hne => ?_⟩
    have hsorted : pySortedDesc (analyze_tweets td).interests ≠ [] := by
      intro hnil
      have hlen := length_pySortedDesc (analyze_tweets td).interests
      rw [hnil] at hlen
      exact hne (List.length_eq_zero.mp hlen.symm)
    obtain ⟨q, rest, hq⟩ := List.exists_cons_of_ne_nil hsorted
    have hqm : q ∈ (analyze_tweets td).interests :=
      mem_pySortedDesc.mp (hq ▸ List.mem_cons_self q rest)
    have hblock : (((lookupCatalog q.1).getD []).take 2).length = 2 :=
      catalog_take2_len q.1 (hinv q hqm).1
    rw [hq]
    simp only [List.take_succ_cons, List.flatMap_cons]
    refine ⟨?_, ?_, ?_⟩
    · rw [List.length_take, List.length_append, hblock]
      omega
    · rw [List.length_take]
      omega
    · intro g hg
      have hgb := List.mem_of_mem_take hg
      rcases List.mem_append.mp hgb with hgl | hgr
      · exact ⟨q, List.mem_cons_self q _, List.mem_of_mem_take hgl⟩
      · obtain ⟨p, hp, hgp⟩ := List.mem_flatMap.mp hgr
        exact ⟨p, List.mem_cons_of_mem q hp, List.mem_of_mem_take hgp⟩

/-- Witness for `analyze_then_recommend_safe` at a payload with one 科技
keyword hit, whose interests dict is evaluated explicitly. -/
theorem analyze_then_recommend_safe_witness :
    (∃ gifts, recommend_gifts (analyze_tweets tdTech).interests = Except.ok gifts ∧
      ((analyze_tweets tdTech).interests ≠ [] →
        2 ≤ gifts.length ∧ gifts.length ≤ 5 ∧
        ∀ g ∈ gifts, ∃ p ∈ (pySortedDesc (analyze_tweets tdTech).interests).take 3,
          g ∈ (lookupCatalog p.1).getD [])) ∧
    (analyze_tweets tdTech).interests = [("科技", 1)] :=
  ⟨(analyze_then_recommend_safe tdTech).2, by decide⟩
